import Mathlib

/-!
Verification of the deep-research orchestration core.

This file gives a shallow embedding, in Lean, of the control-flow core of the
repository (the `ResearchManager` pipeline in `research_manager.py`, the
`send_email` tool in `email_agent.py`, and the email branch of `Runner.run` in
`agents_local.py`), and proves properties of that embedding.

Modelling conventions:
* Python strings are Lean `String`s; `str.strip` / `str.lstrip` /
  `str.startswith` / `in` (substring) / `str.lower` are modelled by the
  `py*` helpers below, working on the underlying `List Char`.
* A call to the LLM runner (`Runner.run`) is an oracle parameter of type
  `Except String α`: `.error e` models a raised exception with message `e`,
  `.ok v` models a normal return.
* The async generator `ResearchManager.run` is modelled as a function from a
  `RunEnv` (the query, flags and the outcome of each stage oracle) to the list
  of yielded chunks, each tagged with the pipeline stage of the `yield`
  statement that produced it and with its kind (plain status, inline stage
  error, absorbed-failure warning, the final report artifact, the fatal error
  from the outermost handler, or the terminal completion message).
* Wall-clock time (`datetime.now(...)` in `_add_report_signature`) is an
  explicit `String` parameter holding the already-formatted timestamp.
-/

/-- Python `str.strip()`: drop leading and trailing whitespace
(ASCII whitespace; the reports and indicator phrases involved are ASCII). -/
def pyStrip (s : String) : String :=
  ⟨((s.data.dropWhile Char.isWhitespace).reverse.dropWhile Char.isWhitespace).reverse⟩

/-- Python `str.lstrip()`: drop leading whitespace. -/
def pyLStrip (s : String) : String :=
  ⟨s.data.dropWhile Char.isWhitespace⟩

/-- Python `s.startswith(p)`. -/
def pyStartswith (s p : String) : Bool :=
  p.data.isPrefixOf s.data

/-- Contiguous-substring membership on character lists, by scanning every
suffix of the haystack. -/
def containsSub (needle : List Char) : List Char → Bool
  | [] => needle.isPrefixOf []
  | c :: t => needle.isPrefixOf (c :: t) || containsSub needle t

/-- Python `needle in haystack` on strings: substring membership. -/
def pyContains (haystack needle : String) : Bool :=
  containsSub needle.data haystack.data

/-- Python `str.lower()` (ASCII case folding, which covers every phrase the
code compares). -/
def pyLower (s : String) : String :=
  ⟨s.data.map Char.toLower⟩

/-- Python truthiness of an optional string (`not x` is true for both an unset
environment variable, `None`, and the empty string). -/
def pyFalsyStr (o : Option String) : Bool :=
  match o with
  | none => true
  | some s => s == ""

/-! ## Search fan-out: `ResearchManager.search` (research_manager.py 256-326) -/

/-- One planned web search (planner_agent.py `WebSearchItem`). -/
structure WebSearchItem where
  reason : String
  query : String
  deriving DecidableEq, Repr

/-- The planner output (planner_agent.py `WebSearchPlan`). -/
structure WebSearchPlan where
  searches : List WebSearchItem
  deriving DecidableEq, Repr

/-- The fixed list of phrases that mark a search summary as insufficient
(research_manager.py 292-298). -/
def insufficientIndicators : List String :=
  [ "no recent information found"
  , "no information found"
  , "insufficient results"
  , "no relevant sources"
  , "could not find" ]

/-- research_manager.py 299-302: a summary has sufficient results when no
insufficiency indicator occurs in it (case-insensitively). -/
def hasSufficientResults (output : String) : Bool :=
  !(insufficientIndicators.any fun indicator =>
      pyContains (pyLower output) (pyLower indicator))

/-- One iteration of the progressive-relaxation loop in
`ResearchManager.search` (research_manager.py 282-322), for one date-range
tier.  `res` is the outcome of the `Runner.run` invocation for this tier
(`.error` = raised), `isFinal` tells whether this is the "no limit" tier.
Result: `some r` means the loop `return`s `r` (`r = none` is Python `None`),
`none` means the loop `continue`s to the next tier. -/
def tryTier (res : Except String String) (isFinal : Bool) : Option (Option String) :=
  match res with
  | .error _ => if isFinal then some none else none
  | .ok output =>
      if output ≠ "" ∧ 50 < (pyStrip output).length then
        if hasSufficientResults output = true ∨ isFinal = true then
          some (some output)
        else
          none
      else
        none

/-- `ResearchManager.search` (research_manager.py 256-326): run the three
date-range tiers `3 months`, `12 months`, `no limit` in order; `oracle i` is
the outcome of the `Runner.run` call at tier `i`.  If all tiers are exhausted
the loop falls through and returns `None`. -/
def search (oracle : Nat → Except String String) : Option String :=
  match tryTier (oracle 0) false with
  | some r => r
  | none =>
      match tryTier (oracle 1) false with
      | some r => r
      | none =>
          match tryTier (oracle 2) true with
          | some r => r
          | none => none

/-! ## Planning: `ResearchManager.plan_searches` (research_manager.py 173-230) -/

/-- The clamp applied to the requested search count
(`max(1, min(5, int(num_searches)))`, research_manager.py 24 and 181). -/
def clampCount (n : Int) : Int :=
  max 1 (min 5 n)

/-- The dynamic per-call instruction text built in `plan_searches`
(research_manager.py 187-202), with the requested count interpolated. -/
def plannerInstructions (numSearches : Int) : String :=
  "You are a research planning assistant that creates web search queries.\n\nCRITICAL RULES:\n1. Generate EXACTLY "
    ++ toString numSearches
    ++ " search queries that will gather the MOST RECENT information\n2. Add recency constraints to queries using RELATIVE TIME REFERENCES ONLY:\n   - Use terms like \"latest\", \"current\", \"recent\", \"newest\", \"most recent\", \"up-to-date\"\n   - Prefer phrases like \"latest version\", \"current status\", \"recent updates\", \"newest developments\"\n   - NEVER include hardcoded years like \"2024\", \"2025\", or any specific year - use relative time terms instead\n3. Prioritize queries that will find:\n   - Official documentation and vendor sites\n   - Recent news and announcements\n   - Current specifications and features\n4. Avoid generic queries - be specific and include temporal indicators using relative time language\n\nYour searches should ensure the research is based on up-to-date information, not outdated sources. Always use relative time references, never hardcoded years.\nIMPORTANT: You must generate EXACTLY "
    ++ toString numSearches
    ++ " search queries."

/-- The mutable state of the shared `planner_agent` object: its `instructions`
field, which `plan_searches` temporarily overwrites. -/
structure PlannerState where
  instructions : String
  deriving DecidableEq, Repr

/-- `ResearchManager.plan_searches` (research_manager.py 173-230).  `oracle`
models `Runner.run` followed by `final_output_as(WebSearchPlan)`, invoked on
the planner agent in its current state; it may raise (`.error`).  Returns the
final planner-agent state (the `finally:` block restores `instructions`, lines
225-227) together with the normal result or the re-raised exception. -/
def plan_searches (ps : PlannerState)
    (oracle : PlannerState → Except String WebSearchPlan)
    (query : String) (numSearches : Int) :
    PlannerState × Except String WebSearchPlan :=
  let n := clampCount numSearches
  let original_instructions := ps.instructions
  let ps' : PlannerState := { ps with instructions := plannerInstructions n }
  let psFinal : PlannerState := { ps' with instructions := original_instructions }
  match oracle ps' with
  | .error e => (psFinal, .error e)
  | .ok plan =>
      let plan :=
        if plan.searches.length ≠ n.toNat then
          if plan.searches.length > n.toNat then
            { plan with searches := plan.searches.take n.toNat }
          else
            plan
        else
          plan
      (psFinal, .ok plan)

/-! ## Search fan-out: `ResearchManager.perform_searches`
(research_manager.py 232-254) -/

deriving instance DecidableEq for Except

/-- The outcome of one fan-out task (`await task` in the `as_completed`
loop): either a raised exception, or the value returned by
`ResearchManager.search` for that item (`none` is Python `None`). -/
abbrev SearchTaskResult := Except String (Option String)

/-- research_manager.py 240-249: whether and what the `as_completed` loop
appends to `results` for one completed task: a raised exception and a `None`
result are both dropped (logged only), a string result is appended. -/
def collectedOutcome (r : SearchTaskResult) : Option String :=
  match r with
  | .ok (some s) => some s
  | .ok none => none
  | .error _ => none

/-- The task list created at research_manager.py 238: one task per plan item,
in plan order; `searchOutcome` models what `self.search(item)` eventually
produces for each item. -/
def searchTasks (searchPlan : WebSearchPlan)
    (searchOutcome : WebSearchItem → SearchTaskResult) : List SearchTaskResult :=
  searchPlan.searches.map searchOutcome

/-- The collection loop of `perform_searches` (research_manager.py 240-251):
given the task outcomes in completion order, return the collected `results`
list. -/
def collectResults (completed : List SearchTaskResult) : List String :=
  completed.filterMap collectedOutcome

/-! ## Email delivery: `send_email` tool (email_agent.py 10-62), the email
branch of `Runner.run` (agents_local.py 592-616), and
`ResearchManager.send_email` (research_manager.py 461-474) -/

/-- The dictionary returned by the `send_email` tool: a `status` entry and an
optional `message` entry. -/
structure EmailSendResult where
  status : String
  message : Option String
  deriving DecidableEq, Repr

/-- The `send_email` tool (email_agent.py 10-62).  `apiKey` / `apiSecret` are
the `MAILJET_API_KEY` / `MAILJET_API_SECRET` environment variables (`none` =
unset); `mailjet` models the `mailjet.send.create` round trip: `.ok code` is a
response with that status code, `.error e` a raised exception (caught by the
`except` at line 58).  The function is total: every path returns a dictionary,
none raises. -/
def send_email (apiKey apiSecret : Option String) (mailjet : Except String Nat)
    (subject htmlBody : String) : EmailSendResult :=
  if pyFalsyStr apiKey || pyFalsyStr apiSecret then
    { status := "error"
    , message := some "MAILJET_API_KEY or MAILJET_API_SECRET not configured. Email not sent." }
  else
    match mailjet with
    | .ok code =>
        if code = 200 then
          { status := "success", message := none }
        else
          { status := "error", message := some ("Mailjet API returned status " ++ toString code) }
    | .error e =>
        { status := "error", message := some ("Failed to send email: " ++ e) }

/-- The email-agent branch of `Runner.run` (agents_local.py 592-616) in the
case where the model requests the tool call: the tool function is invoked and
whatever dictionary it returns — `status` `success` or `error` alike — is
wrapped in a `RunnerResult` and returned normally; no exception is raised from
an error-status dictionary. -/
def runnerRunEmailAgent (toolResult : EmailSendResult) : Except String EmailSendResult :=
  .ok toolResult

/-- `ResearchManager.send_email` (research_manager.py 461-474): awaits
`Runner.run` on the email agent; a raised exception is logged and re-raised,
a normal `RunnerResult` is returned without ever inspecting the `status` of
the tool result. -/
def sendEmailStage (runnerOutcome : Except String EmailSendResult) : Except String Unit :=
  match runnerOutcome with
  | .ok _ => .ok ()
  | .error e => .error e

/-! ## Report data and critical audit (writer_agent.py, critic_agent.py) -/

/-- writer_agent.py `ReportData`. -/
structure ReportData where
  short_summary : String
  markdown_report : String
  follow_up_questions : List String
  deriving DecidableEq, Repr

/-- critic_agent.py `Assumption`. -/
structure Assumption where
  claim : String
  weakness : String
  required_evidence : String
  deriving DecidableEq, Repr

/-- critic_agent.py `CapabilityClassification`. -/
structure CapabilityClassification where
  capability : String
  classification : String
  reasoning : String
  deriving DecidableEq, Repr

/-- critic_agent.py `MissingQuestion`. -/
structure MissingQuestion where
  question : String
  importance : String
  deriving DecidableEq, Repr

/-- critic_agent.py `AgenticReadiness`. -/
structure AgenticReadiness where
  autonomous_agents : String
  secure_execution : String
  context_governance : String
  missing_components : String
  deriving DecidableEq, Repr

/-- critic_agent.py `ConfidenceScore` (an `int` scored 0-100 plus bullet
explanations). -/
structure ConfidenceScore where
  score : Int
  explanation : List String
  deriving DecidableEq, Repr

/-- critic_agent.py `CriticalAudit`. -/
structure CriticalAudit where
  critical_summary : String
  confidence_score : ConfidenceScore
  unproven_assumptions : List Assumption
  capability_classifications : List CapabilityClassification
  missing_questions : List MissingQuestion
  agentic_readiness : AgenticReadiness
  deriving DecidableEq, Repr

/-! ## Report assembly: `ResearchManager._format_audit`
(research_manager.py 328-389) and `ResearchManager._add_report_signature`
(research_manager.py 391-421) -/

/-- The block appended for the `i`-th unproven assumption
(research_manager.py 346-353; `i` counts from 1). -/
def assumptionBlock (i : Nat) (a : Assumption) : String :=
  "\n**Assumption " ++ toString i ++ ":**\n- **Claim:** " ++ a.claim
    ++ "\n- **Weakness:** " ++ a.weakness
    ++ "\n- **Required Evidence:** " ++ a.required_evidence ++ "\n\n"

/-- The block appended for the `i`-th capability classification
(research_manager.py 356-362). -/
def capabilityBlock (i : Nat) (c : CapabilityClassification) : String :=
  "\n**Capability " ++ toString i ++ ": " ++ c.capability
    ++ "**\n- **Classification:** " ++ c.classification
    ++ "\n- **Reasoning:** " ++ c.reasoning ++ "\n\n"

/-- The block appended for the `i`-th missing question
(research_manager.py 365-370). -/
def questionBlock (i : Nat) (q : MissingQuestion) : String :=
  "\n**Question " ++ toString i ++ ": " ++ q.question
    ++ "**\n- **Importance:** " ++ q.importance ++ "\n\n"

/-- `ResearchManager._format_audit` (research_manager.py 328-389, named
`format_audit` here because Lean identifiers cannot begin with an
underscore). -/
def format_audit (audit : CriticalAudit) : String :=
  "\n\n---\n\n## Critical Audit Report\n\n### Overall Assessment\n"
    ++ audit.critical_summary
    ++ "\n\n### Confidence Score: " ++ toString audit.confidence_score.score ++ "/100\n\n"
    ++ String.intercalate "\n"
        (audit.confidence_score.explanation.map fun point => "- " ++ point)
    ++ "\n\n### Unproven Assumptions\n\n"
    ++ String.join ((audit.unproven_assumptions.enum.map
          fun p => assumptionBlock (p.1 + 1) p.2))
    ++ "\n### Marketing Claims vs Technical Reality\n\n"
    ++ String.join ((audit.capability_classifications.enum.map
          fun p => capabilityBlock (p.1 + 1) p.2))
    ++ "\n### Missing Critical Questions\n\n"
    ++ String.join ((audit.missing_questions.enum.map
          fun p => questionBlock (p.1 + 1) p.2))
    ++ "\n### Agentic & MCP Readiness Assessment\n\n**Autonomous Agents Support:**\n"
    ++ audit.agentic_readiness.autonomous_agents
    ++ "\n\n**Secure Execution:**\n"
    ++ audit.agentic_readiness.secure_execution
    ++ "\n\n**Context Governance:**\n"
    ++ audit.agentic_readiness.context_governance
    ++ "\n\n**Missing Components:**\n"
    ++ audit.agentic_readiness.missing_components
    ++ "\n\n---\n"

/-- `ResearchManager._add_report_signature` (research_manager.py 391-421,
named without the leading underscore).  `nowStr` is the formatted UTC
timestamp produced by `datetime.now(timezone.utc).strftime(...)`, passed
explicitly. -/
def add_report_signature (markdown_report query nowStr : String) : String :=
  markdown_report
    ++ "\n\n---\n\n## Report Signature\n\n**Date:** " ++ nowStr
    ++ "\n\n**Research Request:** " ++ query
    ++ "\n\n**Agents Used:**\n- Planner Agent (search strategy planning)\n- Search Agent (web research with progressive date filtering)\n- Writer Agent (report synthesis)\n- Critic Agent (critical audit and validation)\n- Email Agent (report delivery)\n\n**Tools Used:**\n- SERPER Web Search API (progressive date filtering: 3 months → 12 months → no limit)\n- Mailjet Email API\n\n**Models Used:**\n- gpt-4o-mini (all agents)\n\n---\n\n*Report generated by Deep Researcher*\n"

/-- The full assembly performed at research_manager.py 96-99 when the audit
succeeds: append the audit section to the draft, then the signature. -/
def assembleReport (draft : String) (audit : CriticalAudit) (query nowStr : String) : String :=
  add_report_signature (draft ++ "\n\n" ++ format_audit audit) query nowStr

/-- The signature-only block used for the displayed report
(`self._add_report_signature("", query).lstrip()`,
research_manager.py 103, 114, 136). -/
def signatureOnly (query nowStr : String) : String :=
  pyLStrip (add_report_signature "" query nowStr)

/-- The heading normalization at research_manager.py 74-76: prepend the
canonical `# Report` heading when the draft is nonempty and its stripped text
does not already start with it. -/
def displayReportOf (finalReport : String) : String :=
  if finalReport ≠ "" ∧ pyStartswith (pyStrip finalReport) "# Report" = false then
    "# Report\n\n" ++ finalReport
  else
    finalReport

/-! ## The orchestrator: `ResearchManager.run` (research_manager.py 15-170) -/

/-- The pipeline stage a yielded chunk belongs to. -/
inductive Stage where
  | setup
  | planning
  | searching
  | writing
  | auditing
  | delivering
  | finished
  deriving DecidableEq, Repr, BEq

/-- Ordering of the stages along the pipeline. -/
def stageRank : Stage → Nat
  | .setup => 0
  | .planning => 1
  | .searching => 2
  | .writing => 3
  | .auditing => 4
  | .delivering => 5
  | .finished => 6

/-- The kind of a yielded chunk: a plain status line, the inline per-stage
error line yielded just before a fatal stage re-raises, an absorbed-failure
warning (critic timeout or error, email failure), the final report artifact
(the `yield display_report_with_audit` statements at lines 121 and 143), the
outermost fatal-error chunk (line 170), or a terminal completion message
(lines 161 and 166). -/
inductive EventKind where
  | status
  | stageError
  | warning
  | artifact
  | fatal
  | done
  deriving DecidableEq, Repr, BEq

/-- One chunk yielded by `ResearchManager.run`, tagged with the stage and kind
of the `yield` that produced it. -/
structure Event where
  stage : Stage
  kind : EventKind
  text : String
  deriving DecidableEq, Repr, BEq

/-- Boolean test on the kind of an event. -/
def isKind (k : EventKind) (e : Event) : Bool :=
  decide (e.kind = k)

/-- Boolean test for an absorbed-failure warning yielded from the delivery
stage. -/
def isDeliveryWarning (e : Event) : Bool :=
  decide (e.stage = Stage.delivering ∧ e.kind = EventKind.warning)

/-- The outcome of the audited critic invocation
`asyncio.wait_for(self.audit_report(...), timeout=60.0)`
(research_manager.py 89-92): a normal audit, an `asyncio.TimeoutError` after
the 60-second budget, or any other raised exception. -/
inductive AuditOutcome where
  | ok (audit : CriticalAudit)
  | timeout
  | failure (e : String)
  deriving DecidableEq, Repr

/-- Everything one run of `ResearchManager.run` consumes: the request
parameters, the generated trace id, the formatted timestamp used for the
signature, and the outcome of each stage oracle. -/
structure RunEnv where
  query : String
  numSearches : Int
  sendEmail : Bool
  traceId : String
  nowStr : String
  planRes : Except String WebSearchPlan
  searchRes : Except String (List String)
  writeRes : Except String ReportData
  auditRes : AuditOutcome
  emailRes : Except String Unit

/-- The chunk text announcing the report (research_manager.py 117-120 and
139-142). -/
def reportReadyMsg (sendEmail : Bool) : String :=
  if sendEmail then
    "**Report ready - streaming to you now (email will send next)...**\n\n"
  else
    "**Report ready - streaming to you now...**\n\n"

/-- The fatal-error chunk yielded by the outermost handler
(research_manager.py 170). -/
def fatalText (e : String) : String :=
  "**Fatal Error:** " ++ e ++ "\n\nPlease check the logs for more details."

/-- The events yielded from the audit phase (research_manager.py 84-153):
resolution of the audited critic call, the report-ready announcement, the
single final-artifact chunk, and the email-phase announcement.  On audit
success the audit section is merged into the displayed report; on timeout or
error only the signature is appended. -/
def auditPhase (env : RunEnv) (displayReport : String) : List Event :=
  (match env.auditRes with
   | .ok audit =>
       [ ⟨.auditing, .status, "- **Critic Agent** completed - Critical audit generated\n\n"⟩
       , ⟨.auditing, .status, reportReadyMsg env.sendEmail⟩
       , ⟨.auditing, .artifact,
           displayReport ++ "\n\n" ++ format_audit audit ++ "\n\n"
             ++ signatureOnly env.query env.nowStr⟩ ]
   | .timeout =>
       [ ⟨.auditing, .warning, "- **Critic Agent** timed out - Skipping audit and continuing with report\n\n"⟩
       , ⟨.auditing, .status, reportReadyMsg env.sendEmail⟩
       , ⟨.auditing, .artifact,
           displayReport ++ "\n\n" ++ signatureOnly env.query env.nowStr⟩ ]
   | .failure e =>
       [ ⟨.auditing, .warning, "- **Critic Agent** error: " ++ e ++ ". Continuing with original report.\n\n"⟩
       , ⟨.auditing, .status, reportReadyMsg env.sendEmail⟩
       , ⟨.auditing, .artifact,
           displayReport ++ "\n\n" ++ signatureOnly env.query env.nowStr⟩ ])
  ++ (if env.sendEmail then
        [⟨.auditing, .status, "**Starting email phase...**\n\n"⟩]
      else
        [])

/-- The events yielded from the delivery phase (research_manager.py 155-166):
the email stage runs only when requested; a raised exception there is absorbed
into a warning, otherwise the completion messages are yielded. -/
def emailPhase (env : RunEnv) : List Event :=
  if env.sendEmail then
    ⟨.delivering, .status, "- **Agent: Email Agent** - Formatting and sending report via email...\n\n"⟩
      :: (match env.emailRes with
          | .ok _ =>
              [ ⟨.delivering, .status, "- **Email Agent** completed - Report sent successfully\n\n"⟩
              , ⟨.finished, .done, "**Research process complete!**\n\n"⟩ ]
          | .error e =>
              [⟨.delivering, .warning, "Email sending failed: " ++ e ++ ". Research complete."⟩])
  else
    [⟨.finished, .done, "**Research process complete!** (Email sending was disabled)\n\n"⟩]

/-- `ResearchManager.run` (research_manager.py 15-170) as the list of yielded
chunks: the trace banner, then planning, searching, writing, auditing and
delivery, where a raised exception in planning, searching or writing yields
the inline stage-error chunk, re-raises, and the outermost handler yields the
single fatal chunk; audit and email failures are absorbed. -/
def runModel (env : RunEnv) : List Event :=
  [ ⟨.setup, .status, "**View Workflow Trace:** [OpenAI Platform - Traces Tab](https://platform.openai.com/logs/trace?trace_id=" ++ env.traceId ++ ")\n\n"⟩
  , ⟨.setup, .status, "*Trace ID: `" ++ env.traceId ++ "`*\n\n"⟩
  , ⟨.setup, .status, "**Starting research process...**\n\n"⟩
  , ⟨.planning, .status, "- **Agent: Planner Agent** - Planning search strategy for: *" ++ env.query ++ "*\n\n"⟩ ]
  ++ match env.planRes with
  | .error e =>
      [ ⟨.planning, .stageError, "**Error planning searches:** " ++ e⟩
      , ⟨.planning, .fatal, fatalText e⟩ ]
  | .ok searchPlan =>
      [ ⟨.planning, .status, "- **Planner Agent** completed - Generated " ++ toString searchPlan.searches.length ++ " search queries\n\n"⟩
      , ⟨.planning, .status, "**Starting search phase...**\n\n"⟩
      , ⟨.searching, .status, "- **Agent: Search Agent** - Performing " ++ toString searchPlan.searches.length ++ " parallel searches...\n\n"⟩ ]
      ++ (searchPlan.searches.enum.map fun p =>
            ⟨.searching, .status, "  - Search " ++ toString (p.1 + 1) ++ "/" ++ toString searchPlan.searches.length ++ ": *" ++ p.2.query ++ "*\n"⟩)
      ++ match env.searchRes with
      | .error e =>
          [ ⟨.searching, .stageError, "**Error performing searches:** " ++ e⟩
          , ⟨.searching, .fatal, fatalText e⟩ ]
      | .ok searchResults =>
          [ ⟨.searching, .status, "- **Search Agent** completed - Collected " ++ toString searchResults.length ++ " search results\n\n"⟩
          , ⟨.searching, .status, "**Starting report writing phase...**\n\n"⟩
          , ⟨.writing, .status, "- **Agent: Writer Agent** - Synthesizing research findings into comprehensive report...\n\n"⟩ ]
          ++ match env.writeRes with
          | .error e =>
              [ ⟨.writing, .stageError, "**Error writing report:** " ++ e⟩
              , ⟨.writing, .fatal, fatalText e⟩ ]
          | .ok report =>
              [ ⟨.writing, .status, "- **Writer Agent** completed - Report generated (" ++ toString report.markdown_report.length ++ " characters)\n\n"⟩
              , ⟨.writing, .status, "**Starting critical audit phase...**\n\n"⟩
              , ⟨.auditing, .status, "- **Agent: Critic Agent** - Auditing and validating research report...\n\n"⟩ ]
              ++ auditPhase env (displayReportOf report.markdown_report)
              ++ emailPhase env

/-! ## Concrete instances used to evaluate the model -/

/-- Tier oracle on which the first two tiers return a long summary containing
the `could not find` indicator and the final tier returns a summary whose
stripped length is below the 51-character threshold. -/
def cexSearchOracle : Nat → Except String String
  | 0 => .ok "We could not find enough recent sources on this topic to produce a useful summary."
  | 1 => .ok "We could not find enough recent sources on this topic to produce a useful summary."
  | _ => .ok "Only a tiny note."

/-- Tier oracle on which tier one is insufficient, tier two raises, and the
final tier returns a long summary that itself contains an insufficiency
phrase. -/
def witSearchOracle : Nat → Except String String
  | 0 => .ok "We could not find enough recent sources on this topic to produce a useful summary."
  | 1 => .error "rate limited"
  | _ => .ok "Recent information was limited; we could not find fully current sources, so the summary relies on older material."

/-- A two-item search plan. -/
def planW : WebSearchPlan :=
  { searches :=
      [ { reason := "find recent coverage", query := "latest widget trends" }
      , { reason := "vendor documentation", query := "current widget specs" } ] }

/-- Two collected search summaries. -/
def resultsW : List String :=
  ["summary one", "summary two"]

/-- A draft report whose markdown does not start with the canonical heading. -/
def reportW : ReportData :=
  { short_summary := "widgets"
  , markdown_report := "Widget trends are shifting toward composable platforms."
  , follow_up_questions := [] }

/-- A small concrete critical audit. -/
def auditW : CriticalAudit :=
  { critical_summary := "Mostly solid but thin on evidence."
  , confidence_score := { score := 55, explanation := ["few sources", "vendor language", "no benchmarks"] }
  , unproven_assumptions :=
      [{ claim := "adoption is growing", weakness := "no data", required_evidence := "market data" }]
  , capability_classifications :=
      [{ capability := "autonomous agents", classification := "Marketing claim", reasoning := "no technical detail" }]
  , missing_questions :=
      [{ question := "write-back safety", importance := "production risk" }]
  , agentic_readiness :=
      { autonomous_agents := "partial", secure_execution := "unclear"
      , context_governance := "absent", missing_components := "governance layer" } }

/-- A run in which every stage succeeds and email delivery is enabled. -/
def envC2wit : RunEnv :=
  { query := "widget trends", numSearches := 2, sendEmail := true
  , traceId := "trace-2", nowStr := "2025-01-01 00:00:00 UTC"
  , planRes := .ok planW, searchRes := .ok resultsW
  , writeRes := .ok reportW
  , auditRes := .ok auditW, emailRes := .ok () }

/-- A run in which the planning stage raises. -/
def envC3wit : RunEnv :=
  { query := "widget trends", numSearches := 2, sendEmail := true
  , traceId := "trace-3", nowStr := "2025-01-01 00:00:00 UTC"
  , planRes := .error "planner exploded", searchRes := .ok resultsW
  , writeRes := .ok reportW
  , auditRes := .timeout, emailRes := .ok () }

/-- A run with delivery enabled in which the email provider call is made with
no configured credentials, so the `send_email` tool returns a
`status: error` dictionary, which the runner wraps and returns normally. -/
def envC4cex : RunEnv :=
  { query := "widget trends", numSearches := 2, sendEmail := true
  , traceId := "trace-4", nowStr := "2025-01-01 00:00:00 UTC"
  , planRes := .ok planW, searchRes := .ok resultsW
  , writeRes := .ok reportW
  , auditRes := .timeout
  , emailRes := sendEmailStage (runnerRunEmailAgent
      (send_email none none (.error "never reached") "Research Report" "<h1>report</h1>")) }

/-- A run whose writing stage succeeds with an empty markdown draft. -/
def envC7cex : RunEnv :=
  { query := "widget trends", numSearches := 2, sendEmail := false
  , traceId := "trace-7", nowStr := "2025-01-01 00:00:00 UTC"
  , planRes := .ok planW, searchRes := .ok resultsW
  , writeRes := .ok { short_summary := "empty", markdown_report := "", follow_up_questions := [] }
  , auditRes := .timeout, emailRes := .ok () }

/-- A run whose writing stage succeeds with a nonempty draft that lacks the
canonical heading. -/
def envC7wit : RunEnv :=
  { query := "widget trends", numSearches := 2, sendEmail := false
  , traceId := "trace-7b", nowStr := "2025-01-01 00:00:00 UTC"
  , planRes := .ok planW, searchRes := .ok resultsW
  , writeRes := .ok reportW
  , auditRes := .ok auditW, emailRes := .ok () }

/-- The suffix appended after the displayed report inside the single
final-artifact chunk, by audit outcome: the audit section plus signature on
success, the signature alone on timeout or error (research_manager.py 101-104,
111-115, 133-137). -/
def auditArtifactTail (env : RunEnv) : String :=
  match env.auditRes with
  | .ok audit => "\n\n" ++ (format_audit audit ++ ("\n\n" ++ signatureOnly env.query env.nowStr))
  | .timeout => "\n\n" ++ signatureOnly env.query env.nowStr
  | .failure _ => "\n\n" ++ signatureOnly env.query env.nowStr

/-- A three-item search plan. -/
def planC6 : WebSearchPlan :=
  { searches :=
      [ { reason := "r1", query := "q1" }
      , { reason := "r2", query := "q2" }
      , { reason := "r3", query := "q3" } ] }

/-- A per-item outcome in which every search succeeds. -/
def outcomeC6 : WebSearchItem → SearchTaskResult :=
  fun item => .ok (some ("summary for " ++ item.query))

/-! # Theorems -/

/-- C1 (counterexample): with the first two tiers judged insufficient (their
summaries contain `could not find`), a final-tier summary whose stripped
length is not above 50 characters is NOT accepted: `search` returns `none`,
not the summary.  This falsifies the claim that whatever the final tier
returns, of any content or length, is accepted unconditionally. -/
theorem search_short_final_tier_dropped :
    tryTier (cexSearchOracle 0) false = none ∧
    tryTier (cexSearchOracle 1) false = none ∧
    cexSearchOracle 2 = .ok "Only a tiny note." ∧
    search cexSearchOracle = none :=
  ⟨by decide, by decide, rfl, by decide⟩

/-- C1 (amended): if the first two tiers are judged insufficient and the
final (no recency constraint) tier returns a summary whose stripped length
exceeds 50 characters, `search` returns that summary regardless of its
content — the insufficiency-phrase check is not applied on the final tier. -/
theorem search_accepts_long_final_tier (oracle : Nat → Except String String)
    (s : String)
    (h0 : tryTier (oracle 0) false = none)
    (h1 : tryTier (oracle 1) false = none)
    (h2 : oracle 2 = .ok s)
    (hlen : 50 < (pyStrip s).length) :
    search oracle = some s := by
  have hne : s ≠ "" := by
    intro h
    subst h
    exact absurd hlen (by decide)
  have hfinal : tryTier (oracle 2) true = some (some s) := by
    rw [h2]
    simp only [tryTier]
    rw [if_pos ⟨hne, hlen⟩, if_pos (Or.inr trivial)]
  simp only [search, h0, h1, hfinal]

/-- C1 (witness): a concrete run of the amended theorem, on an oracle whose
final tier returns a long summary itself containing an insufficiency
phrase. -/
theorem search_accepts_long_final_tier_witness :
    tryTier (witSearchOracle 0) false = none ∧
    tryTier (witSearchOracle 1) false = none ∧
    witSearchOracle 2 = .ok "Recent information was limited; we could not find fully current sources, so the summary relies on older material." ∧
    search witSearchOracle = some "Recent information was limited; we could not find fully current sources, so the summary relies on older material." :=
  ⟨by decide, by decide, rfl,
    search_accepts_long_final_tier witSearchOracle _ (by decide) (by decide) rfl (by decide)⟩

/-- C8: report assembly is deterministic.  With the timestamp made an explicit
input (the only impure ingredient of `_add_report_signature`), formatting the
audit section and appending the signature block twice on identical inputs
produces byte-identical output (`String.data` is the byte-determining
character sequence). -/
theorem report_assembly_deterministic
    (d1 d2 : String) (a1 a2 : CriticalAudit) (q1 q2 ts1 ts2 : String)
    (hd : d1 = d2) (ha : a1 = a2) (hq : q1 = q2) (hts : ts1 = ts2) :
    (format_audit a1).data = (format_audit a2).data ∧
    (add_report_signature d1 q1 ts1).data = (add_report_signature d2 q2 ts2).data ∧
    (assembleReport d1 a1 q1 ts1).data = (assembleReport d2 a2 q2 ts2).data := by
  subst hd; subst ha; subst hq; subst hts
  exact ⟨rfl, rfl, rfl⟩

/-- C8 (witness): the determinism theorem applied at concrete inputs. -/
theorem report_assembly_deterministic_witness :
    (format_audit auditW).data = (format_audit auditW).data ∧
    (add_report_signature "draft body" "widget trends" "2025-01-01 00:00:00 UTC").data =
      (add_report_signature "draft body" "widget trends" "2025-01-01 00:00:00 UTC").data ∧
    (assembleReport "draft body" auditW "widget trends" "2025-01-01 00:00:00 UTC").data =
      (assembleReport "draft body" auditW "widget trends" "2025-01-01 00:00:00 UTC").data :=
  report_assembly_deterministic "draft body" "draft body" auditW auditW
    "widget trends" "widget trends" "2025-01-01 00:00:00 UTC" "2025-01-01 00:00:00 UTC"
    rfl rfl rfl rfl

/-- C9: when either Mailjet credential is unset (or empty), the `send_email`
tool returns the `status: error` dictionary with its descriptive message; it
never reaches the provider call and, being a total function, raises nothing. -/
theorem send_email_missing_credentials (apiKey apiSecret : Option String)
    (mailjet : Except String Nat) (subject htmlBody : String)
    (h : (pyFalsyStr apiKey || pyFalsyStr apiSecret) = true) :
    send_email apiKey apiSecret mailjet subject htmlBody =
      { status := "error"
      , message := some "MAILJET_API_KEY or MAILJET_API_SECRET not configured. Email not sent." } := by
  unfold send_email
  rw [if_pos h]

/-- C9 (witness): the theorem applied with the API key unset and the secret
present. -/
theorem send_email_missing_credentials_witness :
    (pyFalsyStr none || pyFalsyStr (some "secret")) = true ∧
    send_email none (some "secret") (.ok 200) "Research Report" "<p>report</p>" =
      { status := "error"
      , message := some "MAILJET_API_KEY or MAILJET_API_SECRET not configured. Email not sent." } :=
  ⟨by decide,
    send_email_missing_credentials none (some "secret") (.ok 200) "Research Report" "<p>report</p>"
      (by decide)⟩

/-- C10: `plan_searches` restores the shared planner agent instructions to
their pre-call value before returning, on the success path and on every
oracle-exception path alike (the restore sits in a `finally:` block), so the
temporary per-call overwrite never leaks into later calls. -/
theorem plan_searches_restores_instructions (ps : PlannerState)
    (oracle : PlannerState → Except String WebSearchPlan)
    (query : String) (numSearches : Int) :
    (plan_searches ps oracle query numSearches).1.instructions = ps.instructions := by
  simp only [plan_searches]
  cases hr : oracle { ps with instructions := plannerInstructions (clampCount numSearches) } <;>
    simp [hr]

/-- C5: for every requested search count the count is clamped to `[1,5]`;
when the planner call succeeds with `plan`, `plan_searches` returns `plan`
truncated to the clamped count (truncating when the planner returned more,
keeping the whole list when it returned fewer), so the assembled plan has
exactly `min (clamped n) (planner-returned count)` items; `perform_searches`
creates exactly one task per plan item, hence never more than `n` tasks for a
requested count `n ≥ 1`. -/
theorem plan_searches_clamped_count (ps : PlannerState)
    (oracle : PlannerState → Except String WebSearchPlan) (query : String)
    (n : Int) (plan : WebSearchPlan)
    (searchOutcome : WebSearchItem → SearchTaskResult)
    (hok : oracle { ps with instructions := plannerInstructions (clampCount n) } = .ok plan) :
    1 ≤ clampCount n ∧ clampCount n ≤ 5 ∧
    (plan_searches ps oracle query n).2 =
      .ok { searches := plan.searches.take (clampCount n).toNat } ∧
    (plan.searches.take (clampCount n).toNat).length =
      min (clampCount n).toNat plan.searches.length ∧
    (searchTasks { searches := plan.searches.take (clampCount n).toNat } searchOutcome).length =
      (plan.searches.take (clampCount n).toNat).length ∧
    (1 ≤ n →
      (searchTasks { searches := plan.searches.take (clampCount n).toNat } searchOutcome).length
        ≤ n.toNat) := by
  refine ⟨by unfold clampCount; omega, by unfold clampCount; omega, ?_, ?_, ?_, ?_⟩
  · simp only [plan_searches, hok]
    by_cases h1 : plan.searches.length = (clampCount n).toNat
    · rw [if_neg (not_not_intro h1), List.take_of_length_le (le_of_eq h1)]
    · rw [if_pos h1]
      by_cases h2 : plan.searches.length > (clampCount n).toNat
      · rw [if_pos h2]
      · rw [if_neg h2, List.take_of_length_le (by omega)]
  · rw [List.length_take]
  · simp [searchTasks]
  · intro hn
    have hcn : (clampCount n).toNat ≤ n.toNat := by
      unfold clampCount
      omega
    simp only [searchTasks, List.length_map, List.length_take]
    exact le_trans inf_le_left hcn

/-- C5 (witness): requested count 1 against a two-item planner result: the
plan is truncated to one item and exactly one task is created. -/
theorem plan_searches_clamped_count_witness :
    1 ≤ clampCount 1 ∧ clampCount 1 ≤ 5 ∧
    (plan_searches ⟨"original instructions"⟩ (fun _ => .ok planW) "widget trends" 1).2 =
      .ok { searches := planW.searches.take (clampCount 1).toNat } ∧
    (planW.searches.take (clampCount 1).toNat).length =
      min (clampCount 1).toNat planW.searches.length ∧
    (searchTasks { searches := planW.searches.take (clampCount 1).toNat } outcomeC6).length =
      (planW.searches.take (clampCount 1).toNat).length ∧
    (1 ≤ (1 : Int) →
      (searchTasks { searches := planW.searches.take (clampCount 1).toNat } outcomeC6).length
        ≤ (1 : Int).toNat) :=
  plan_searches_clamped_count ⟨"original instructions"⟩ (fun _ => .ok planW)
    "widget trends" 1 planW outcomeC6 rfl

/-- The length of the collected results list counts the tasks whose outcome
is kept by the collection loop. -/
theorem collectResults_length_eq (l : List SearchTaskResult) :
    (collectResults l).length = l.countP fun r => (collectedOutcome r).isSome := by
  unfold collectResults
  induction l with
  | nil => rfl
  | cons a t ih =>
      rw [List.filterMap_cons, List.countP_cons]
      cases h : collectedOutcome a <;> simp [h, ih]

/-- The multiplicity of one summary string in the collected results counts
the tasks whose kept outcome is that string. -/
theorem collectResults_count_eq (s : String) (l : List SearchTaskResult) :
    (collectResults l).count s = l.countP fun r => decide (collectedOutcome r = some s) := by
  unfold collectResults
  induction l with
  | nil => rfl
  | cons a t ih =>
      rw [List.filterMap_cons, List.countP_cons]
      cases h : collectedOutcome a with
      | none => simp [h, ih]
      | some b =>
          by_cases hb : b = s <;> simp [h, hb, ih, List.count_cons]

/-- C6: for every plan, the collection loop of `perform_searches` — a
completion-order traversal (any permutation) of one task per plan item —
returns at most plan-size outcomes; and if one task permanently fails (raises
or returns `None`) while the others are unchanged, the returned count drops
by at most 1 and every sibling outcome is still collected (its multiplicity
drops by at most the failed item own contribution). -/
theorem perform_searches_partial_failure
    (searchPlan : WebSearchPlan) (searchOutcome : WebSearchItem → SearchTaskResult)
    (completed completed' : List SearchTaskResult)
    (i : Nat) (f : SearchTaskResult)
    (hi : i < (searchTasks searchPlan searchOutcome).length)
    (hf : collectedOutcome f = none)
    (hc : completed.Perm (searchTasks searchPlan searchOutcome))
    (hc' : completed'.Perm ((searchTasks searchPlan searchOutcome).set i f)) :
    (collectResults completed).length ≤ searchPlan.searches.length ∧
    (collectResults completed').length ≤ searchPlan.searches.length ∧
    (collectResults completed').length ≤ (collectResults completed).length ∧
    (collectResults completed).length ≤ (collectResults completed').length + 1 ∧
    ∀ s : String,
      (collectResults completed).count s ≤
        (collectResults completed').count s +
          (if collectedOutcome (searchTasks searchPlan searchOutcome)[i] = some s
           then 1 else 0) := by
  have hplen : (searchTasks searchPlan searchOutcome).length = searchPlan.searches.length := by
    simp [searchTasks]
  have hlen1 : (collectResults completed).length
      = (collectResults (searchTasks searchPlan searchOutcome)).length :=
    (List.Perm.filterMap collectedOutcome hc).length_eq
  have hlen2 : (collectResults completed').length
      = (collectResults ((searchTasks searchPlan searchOutcome).set i f)).length :=
    (List.Perm.filterMap collectedOutcome hc').length_eq
  have hbase : (collectResults (searchTasks searchPlan searchOutcome)).length
      ≤ (searchTasks searchPlan searchOutcome).length :=
    List.length_filterMap_le collectedOutcome _
  have hset : (collectResults ((searchTasks searchPlan searchOutcome).set i f)).length
      = (collectResults (searchTasks searchPlan searchOutcome)).length
        - (if (collectedOutcome (searchTasks searchPlan searchOutcome)[i]).isSome
           then 1 else 0) := by
    rw [collectResults_length_eq, collectResults_length_eq,
      List.countP_set _ _ _ _ hi]
    simp [hf]
  refine ⟨by omega, by omega, by omega, ?_, ?_⟩
  · have hle : (if (collectedOutcome (searchTasks searchPlan searchOutcome)[i]).isSome
        then 1 else 0) ≤ 1 := by
      split <;> omega
    omega
  · intro s
    have hcnt1 : (collectResults completed).count s
        = (collectResults (searchTasks searchPlan searchOutcome)).count s :=
      (List.Perm.filterMap collectedOutcome hc).count_eq s
    have hcnt2 : (collectResults completed').count s
        = (collectResults ((searchTasks searchPlan searchOutcome).set i f)).count s :=
      (List.Perm.filterMap collectedOutcome hc').count_eq s
    have hsetc : (collectResults ((searchTasks searchPlan searchOutcome).set i f)).count s
        = (collectResults (searchTasks searchPlan searchOutcome)).count s
          - (if collectedOutcome (searchTasks searchPlan searchOutcome)[i] = some s
             then 1 else 0) := by
      rw [collectResults_count_eq, collectResults_count_eq,
        List.countP_set _ _ _ _ hi]
      simp [hf]
    rw [hcnt1, hcnt2, hsetc]
    by_cases hq : collectedOutcome (searchTasks searchPlan searchOutcome)[i] = some s <;>
      simp [hq] <;> omega

/-- C6 (witness): a three-item plan whose tasks all succeed, against the same
batch with the second task replaced by a raised exception; outcomes are
collected in a different completion order in each batch. -/
theorem perform_searches_partial_failure_witness :
    (collectResults [.ok (some "summary for q3"), .ok (some "summary for q1"), .ok (some "summary for q2")]).length
      ≤ planC6.searches.length ∧
    (collectResults [.ok (some "summary for q3"), .error "boom", .ok (some "summary for q1")]).length
      ≤ planC6.searches.length ∧
    (collectResults [.ok (some "summary for q3"), .error "boom", .ok (some "summary for q1")]).length
      ≤ (collectResults [.ok (some "summary for q3"), .ok (some "summary for q1"), .ok (some "summary for q2")]).length ∧
    (collectResults [.ok (some "summary for q3"), .ok (some "summary for q1"), .ok (some "summary for q2")]).length
      ≤ (collectResults [.ok (some "summary for q3"), .error "boom", .ok (some "summary for q1")]).length + 1 ∧
    (collectResults [.ok (some "summary for q3"), .ok (some "summary for q1"), .ok (some "summary for q2")]).count "summary for q2"
      ≤ (collectResults [.ok (some "summary for q3"), .error "boom", .ok (some "summary for q1")]).count "summary for q2" + 1 :=
  have H := perform_searches_partial_failure planC6 outcomeC6
    [.ok (some "summary for q3"), .ok (some "summary for q1"), .ok (some "summary for q2")]
    [.ok (some "summary for q3"), .error "boom", .ok (some "summary for q1")]
    1 (.error "boom") (by decide) rfl (by decide) (by decide)
  ⟨H.1, H.2.1, H.2.2.1, H.2.2.2.1, H.2.2.2.2 "summary for q2"⟩

/-- No event produced by the per-item search announcement loop matches a
non-status kind. -/
theorem countP_isKind_status_map (k : EventKind) (hk : k ≠ .status)
    (l : List (Nat × WebSearchItem)) (st : Stage) (g : Nat × WebSearchItem → String) :
    (l.map fun p => (⟨st, .status, g p⟩ : Event)).countP (isKind k) = 0 := by
  rw [List.countP_map]
  refine List.countP_eq_zero.mpr fun a _ => ?_
  simp only [Function.comp, isKind, decide_eq_true_eq]
  exact fun h => hk h.symm

/-- The audit phase always yields exactly one final-artifact chunk, whatever
the audit outcome and the delivery flag. -/
theorem auditPhase_one_artifact (env : RunEnv) (d : String) :
    (auditPhase env d).countP (isKind .artifact) = 1 := by
  unfold auditPhase
  cases env.auditRes <;> cases h : env.sendEmail <;>
    simp [isKind, List.countP_append, List.countP_cons]

/-- The delivery phase never yields a final-artifact chunk. -/
theorem emailPhase_no_artifact (env : RunEnv) :
    (emailPhase env).countP (isKind .artifact) = 0 := by
  unfold emailPhase
  cases h : env.sendEmail <;> simp [isKind, List.countP_cons]
  cases env.emailRes <;> simp [isKind, List.countP_cons]

/-- C2: every run that completes the writing stage yields exactly one
final-artifact chunk, on all three audit outcomes (success, 60-second
timeout, exception) and for every delivery flag and email outcome, including
email failure. -/
theorem run_exactly_one_artifact (env : RunEnv)
    (plan : WebSearchPlan) (results : List String) (report : ReportData)
    (hplan : env.planRes = .ok plan)
    (hsearch : env.searchRes = .ok results)
    (hwrite : env.writeRes = .ok report) :
    (runModel env).countP (isKind .artifact) = 1 := by
  simp only [runModel, hplan, hsearch, hwrite]
  simp only [List.countP_append, List.countP_cons,
    countP_isKind_status_map EventKind.artifact (by simp) ,
    auditPhase_one_artifact, emailPhase_no_artifact]
  simp [isKind]

/-- The last element of a list ending in an explicit two-element tail. -/
theorem getLast?_append_pair (l : List Event) (a b : Event) :
    (l ++ [a, b]).getLast? = some b := by
  rw [show l ++ [a, b] = (l ++ [a]) ++ [b] by simp, List.getLast?_concat]

/-- Search announcement-loop events never belong to a stage ranked above
their own stage bound. -/
theorem countP_stageGt_map (l : List (Nat × WebSearchItem)) (st : Stage)
    (g : Nat × WebSearchItem → String) (r : Nat) (h : stageRank st ≤ r) :
    (l.map fun p => (⟨st, .status, g p⟩ : Event)).countP
      (fun ev => decide (r < stageRank ev.stage)) = 0 := by
  rw [List.countP_map]
  refine List.countP_eq_zero.mpr fun a _ => ?_
  simp only [Function.comp, decide_eq_true_eq]
  omega

/-- C3: when planning, searching or writing raises, the run surfaces the
inline stage-error chunk and then exactly one terminal fatal chunk describing
the failure; the fatal chunk is the last event, no final artifact and no
completion event are yielded, and zero events of any later stage are yielded
(no later stage executes). -/
theorem run_fatal_single_terminal (env : RunEnv) :
    (∀ e, env.planRes = .error e →
      (runModel env).countP (isKind .fatal) = 1 ∧
      (runModel env).getLast? = some ⟨.planning, .fatal, fatalText e⟩ ∧
      (runModel env).countP (isKind .artifact) = 0 ∧
      (runModel env).countP (isKind .done) = 0 ∧
      (runModel env).countP
        (fun ev => decide (stageRank .planning < stageRank ev.stage)) = 0) ∧
    (∀ plan e, env.planRes = .ok plan → env.searchRes = .error e →
      (runModel env).countP (isKind .fatal) = 1 ∧
      (runModel env).getLast? = some ⟨.searching, .fatal, fatalText e⟩ ∧
      (runModel env).countP (isKind .artifact) = 0 ∧
      (runModel env).countP (isKind .done) = 0 ∧
      (runModel env).countP
        (fun ev => decide (stageRank .searching < stageRank ev.stage)) = 0) ∧
    (∀ plan results e, env.planRes = .ok plan → env.searchRes = .ok results →
      env.writeRes = .error e →
      (runModel env).countP (isKind .fatal) = 1 ∧
      (runModel env).getLast? = some ⟨.writing, .fatal, fatalText e⟩ ∧
      (runModel env).countP (isKind .artifact) = 0 ∧
      (runModel env).countP (isKind .done) = 0 ∧
      (runModel env).countP
        (fun ev => decide (stageRank .writing < stageRank ev.stage)) = 0) := by
  refine ⟨?_, ?_, ?_⟩
  · intro e h
    simp only [runModel, h]
    refine ⟨by simp [isKind, List.countP_append, List.countP_cons], rfl,
      by simp [isKind, List.countP_append, List.countP_cons],
      by simp [isKind, List.countP_append, List.countP_cons],
      by simp [stageRank, List.countP_append, List.countP_cons]⟩
  · intro plan e hp h
    simp only [runModel, hp, h]
    refine ⟨?_, ?_, ?_, ?_, ?_⟩
    · simp [isKind, List.countP_append, List.countP_cons,
        countP_isKind_status_map EventKind.fatal (by simp)]
    · simp only [← List.append_assoc]
      exact getLast?_append_pair _ _ _
    · simp [isKind, List.countP_append, List.countP_cons,
        countP_isKind_status_map EventKind.artifact (by simp)]
    · simp [isKind, List.countP_append, List.countP_cons,
        countP_isKind_status_map EventKind.done (by simp)]
    · simp [stageRank, List.countP_append, List.countP_cons,
        countP_stageGt_map _ Stage.searching _ 2 (by simp [stageRank])]
  · intro plan results e hp hs h
    simp only [runModel, hp, hs, h]
    refine ⟨?_, ?_, ?_, ?_, ?_⟩
    · simp [isKind, List.countP_append, List.countP_cons,
        countP_isKind_status_map EventKind.fatal (by simp)]
    · simp only [← List.append_assoc]
      exact getLast?_append_pair _ _ _
    · simp [isKind, List.countP_append, List.countP_cons,
        countP_isKind_status_map EventKind.artifact (by simp)]
    · simp [isKind, List.countP_append, List.countP_cons,
        countP_isKind_status_map EventKind.done (by simp)]
    · simp [stageRank, List.countP_append, List.countP_cons,
        countP_stageGt_map _ Stage.searching _ 3 (by simp [stageRank])]

/-- C2 (witness): the exactly-one-artifact theorem applied to a fully
successful run with delivery enabled. -/
theorem run_exactly_one_artifact_witness :
    (runModel envC2wit).countP (isKind .artifact) = 1 :=
  run_exactly_one_artifact envC2wit planW resultsW reportW rfl rfl rfl

/-- C3 (witness): the fatal-propagation theorem applied to a run whose
planning stage raises. -/
theorem run_fatal_single_terminal_witness :
    (runModel envC3wit).countP (isKind .fatal) = 1 ∧
    (runModel envC3wit).getLast? = some ⟨.planning, .fatal, fatalText "planner exploded"⟩ ∧
    (runModel envC3wit).countP (isKind .artifact) = 0 ∧
    (runModel envC3wit).countP (isKind .done) = 0 ∧
    (runModel envC3wit).countP
      (fun ev => decide (stageRank .planning < stageRank ev.stage)) = 0 :=
  (run_fatal_single_terminal envC3wit).1 "planner exploded" rfl

/-- Search announcement-loop events are never delivery warnings. -/
theorem countP_deliveryWarning_map (l : List (Nat × WebSearchItem)) (st : Stage)
    (g : Nat × WebSearchItem → String) :
    (l.map fun p => (⟨st, .status, g p⟩ : Event)).countP isDeliveryWarning = 0 := by
  rw [List.countP_map]
  refine List.countP_eq_zero.mpr fun a _ => ?_
  simp [Function.comp, isDeliveryWarning]

/-- C4 (counterexample): delivery enabled and the email provider returning a
`status: error` dictionary (here from missing credentials).  The runner wraps
and returns the dictionary, `ResearchManager.send_email` never inspects it,
so the run reaches normal completion with NO warning event about the
delivery failure — zero delivery warnings are yielded, not exactly one. -/
theorem run_email_error_status_no_warning_cex :
    envC4cex.emailRes = sendEmailStage (runnerRunEmailAgent
      (send_email none none (.error "never reached") "Research Report" "<h1>report</h1>")) ∧
    (send_email none none (.error "never reached") "Research Report" "<h1>report</h1>").status
      = "error" ∧
    (runModel envC4cex).countP isDeliveryWarning = 0 ∧
    (runModel envC4cex).countP (isKind .done) = 1 ∧
    (runModel envC4cex).countP (isKind .fatal) = 0 :=
  ⟨rfl, rfl, by decide, by decide, by decide⟩

/-- C4 (amended): with delivery enabled, when the email tool returns any
dictionary — a `status: error` one included — the runner returns it normally,
so the pipeline reaches normal completion (exactly one completion event) with
no fatal event; but the delivery failure is silently absorbed: no delivery
warning is emitted and the run instead reports the email stage as completed
successfully. -/
theorem run_email_error_status_absorbed (env : RunEnv)
    (plan : WebSearchPlan) (results : List String) (report : ReportData)
    (r : EmailSendResult)
    (hplan : env.planRes = .ok plan)
    (hsearch : env.searchRes = .ok results)
    (hwrite : env.writeRes = .ok report)
    (hsend : env.sendEmail = true)
    (hemail : env.emailRes = sendEmailStage (runnerRunEmailAgent r)) :
    (runModel env).countP (isKind .done) = 1 ∧
    (runModel env).countP (isKind .fatal) = 0 ∧
    (runModel env).countP isDeliveryWarning = 0 ∧
    (⟨.delivering, .status, "- **Email Agent** completed - Report sent successfully\n\n"⟩ : Event)
      ∈ runModel env := by
  have hok : env.emailRes = .ok () := hemail
  refine ⟨?_, ?_, ?_, ?_⟩
  · simp only [runModel, hplan, hsearch, hwrite]
    have ha : (auditPhase env (displayReportOf report.markdown_report)).countP (isKind .done) = 0 := by
      unfold auditPhase
      cases env.auditRes <;> cases h : env.sendEmail <;>
        simp [isKind, List.countP_append, List.countP_cons]
    have he : (emailPhase env).countP (isKind .done) = 1 := by
      unfold emailPhase
      rw [hsend, hok]
      simp [isKind, List.countP_cons]
    simp [isKind, List.countP_append, List.countP_cons, ha, he,
      countP_isKind_status_map EventKind.done (by simp)]
  · simp only [runModel, hplan, hsearch, hwrite]
    have ha : (auditPhase env (displayReportOf report.markdown_report)).countP (isKind .fatal) = 0 := by
      unfold auditPhase
      cases env.auditRes <;> cases h : env.sendEmail <;>
        simp [isKind, List.countP_append, List.countP_cons]
    have he : (emailPhase env).countP (isKind .fatal) = 0 := by
      unfold emailPhase
      rw [hsend, hok]
      simp [isKind, List.countP_cons]
    simp [isKind, List.countP_append, List.countP_cons, ha, he,
      countP_isKind_status_map EventKind.fatal (by simp)]
  · simp only [runModel, hplan, hsearch, hwrite]
    have ha : (auditPhase env (displayReportOf report.markdown_report)).countP isDeliveryWarning = 0 := by
      unfold auditPhase
      cases env.auditRes <;> cases h : env.sendEmail <;>
        simp [isDeliveryWarning, List.countP_append, List.countP_cons]
    have he : (emailPhase env).countP isDeliveryWarning = 0 := by
      unfold emailPhase
      rw [hsend, hok]
      simp [isDeliveryWarning, List.countP_cons]
    simp [isDeliveryWarning, List.countP_append, List.countP_cons, ha, he,
      countP_deliveryWarning_map]
  · simp only [runModel, hplan, hsearch, hwrite]
    have he : (⟨.delivering, .status, "- **Email Agent** completed - Report sent successfully\n\n"⟩ : Event)
        ∈ emailPhase env := by
      unfold emailPhase
      rw [hsend, hok]
      simp
    simp [List.mem_append, he]

/-- C4 (witness): the amended theorem applied to the concrete
missing-credentials run. -/
theorem run_email_error_status_absorbed_witness :
    (runModel envC4cex).countP (isKind .done) = 1 ∧
    (runModel envC4cex).countP (isKind .fatal) = 0 ∧
    (runModel envC4cex).countP isDeliveryWarning = 0 ∧
    (⟨.delivering, .status, "- **Email Agent** completed - Report sent successfully\n\n"⟩ : Event)
      ∈ runModel envC4cex :=
  run_email_error_status_absorbed envC4cex planW resultsW reportW
    (send_email none none (.error "never reached") "Research Report" "<h1>report</h1>")
    rfl rfl rfl rfl rfl

/-- Search announcement-loop events are never artifacts, as a filter. -/
theorem filter_isKind_status_map (k : EventKind) (hk : k ≠ .status)
    (l : List (Nat × WebSearchItem)) (st : Stage) (g : Nat × WebSearchItem → String) :
    (l.map fun p => (⟨st, .status, g p⟩ : Event)).filter (isKind k) = [] := by
  refine List.filter_eq_nil_iff.mpr fun a ha => ?_
  obtain ⟨p, -, rfl⟩ := List.mem_map.mp ha
  simp only [isKind, decide_eq_true_eq]
  exact fun h => hk h.symm

/-- In a run whose writing stage succeeds, the unique artifact chunk is the
displayed report followed by the audit-dependent tail. -/
theorem runModel_artifact_texts (env : RunEnv)
    (plan : WebSearchPlan) (results : List String) (report : ReportData)
    (hplan : env.planRes = .ok plan)
    (hsearch : env.searchRes = .ok results)
    (hwrite : env.writeRes = .ok report) :
    (runModel env).filter (isKind .artifact)
      = [⟨.auditing, .artifact,
          displayReportOf report.markdown_report ++ auditArtifactTail env⟩] := by
  have haudit : (auditPhase env (displayReportOf report.markdown_report)).filter (isKind .artifact)
      = [⟨.auditing, .artifact,
          displayReportOf report.markdown_report ++ auditArtifactTail env⟩] := by
    unfold auditPhase auditArtifactTail
    cases env.auditRes <;> cases h : env.sendEmail <;>
      simp [isKind, List.filter_append, List.filter_cons, String.append_assoc]
  have hemail : (emailPhase env).filter (isKind .artifact) = [] := by
    unfold emailPhase
    cases h : env.sendEmail <;> simp [isKind, List.filter_cons]
    cases env.emailRes <;> simp [isKind, List.filter_cons]
  simp only [runModel, hplan, hsearch, hwrite]
  simp [List.filter_append, List.filter_cons, isKind,
    filter_isKind_status_map EventKind.artifact (by simp), haudit, hemail]

/-- If the draft is nonempty, any chunk extending the normalized displayed
report starts with the canonical heading once leading whitespace is dropped;
when the stripped draft lacked the heading (so it was prepended), the chunk
starts with the heading outright. -/
theorem displayReport_append_starts (d t : String) (hd : d ≠ "") :
    pyStartswith (pyLStrip (displayReportOf d ++ t)) "# Report" = true ∧
    (pyStartswith (pyStrip d) "# Report" = false →
      pyStartswith (displayReportOf d ++ t) "# Report" = true) := by
  by_cases hs : pyStartswith (pyStrip d) "# Report" = true
  · have hdisp : displayReportOf d = d := by
      unfold displayReportOf
      rw [if_neg]
      simp [hs]
    rw [hdisp]
    constructor
    · have hs' : "# Report".data.isPrefixOf (pyStrip d).data = true := hs
      have hpre1 : "# Report".data <+:
          ((d.data.dropWhile Char.isWhitespace).reverse.dropWhile Char.isWhitespace).reverse :=
        List.isPrefixOf_iff_prefix.mp hs'
      have hsuf : (d.data.dropWhile Char.isWhitespace).reverse.dropWhile Char.isWhitespace
          <:+ (d.data.dropWhile Char.isWhitespace).reverse :=
        List.dropWhile_suffix _
      have hpre2 : ((d.data.dropWhile Char.isWhitespace).reverse.dropWhile Char.isWhitespace).reverse
          <+: d.data.dropWhile Char.isWhitespace := by
        have h2 := hsuf.reverse
        rwa [List.reverse_reverse] at h2
      have hpre3 : "# Report".data <+: d.data.dropWhile Char.isWhitespace :=
        hpre1.trans hpre2
      have hfront : d.data.dropWhile Char.isWhitespace ≠ [] := by
        intro h0
        rw [h0] at hpre3
        exact absurd (List.prefix_nil.mp hpre3) (by decide)
      have hdw : (d.data ++ t.data).dropWhile Char.isWhitespace
          = d.data.dropWhile Char.isWhitespace ++ t.data := by
        rw [List.dropWhile_append, if_neg]
        simp only [List.isEmpty_iff]
        exact hfront
      show "# Report".data.isPrefixOf ((d ++ t).data.dropWhile Char.isWhitespace) = true
      rw [String.data_append, hdw]
      exact List.isPrefixOf_iff_prefix.mpr (hpre3.trans (List.prefix_append _ _))
    · intro hcon
      rw [hcon] at hs
      exact absurd hs (by decide)
  · have hsf : pyStartswith (pyStrip d) "# Report" = false := by
      simp only [Bool.not_eq_true] at hs
      exact hs
    have hdisp : displayReportOf d = "# Report\n\n" ++ d := by
      unfold displayReportOf
      rw [if_pos ⟨hd, hsf⟩]
    rw [hdisp, String.append_assoc]
    have key : pyStartswith ("# Report\n\n" ++ (d ++ t)) "# Report" = true := by
      show "# Report".data.isPrefixOf (("# Report\n\n" ++ (d ++ t)).data) = true
      rw [String.data_append]
      refine List.isPrefixOf_iff_prefix.mpr ?_
      have hsplit : "# Report\n\n".data = "# Report".data ++ "\n\n".data := by decide
      rw [hsplit, List.append_assoc]
      exact List.prefix_append _ _
    refine ⟨?_, fun _ => key⟩
    show "# Report".data.isPrefixOf
      (("# Report\n\n" ++ (d ++ t)).data.dropWhile Char.isWhitespace) = true
    have hdata : ("# Report\n\n" ++ (d ++ t)).data
        = '#' :: (" Report\n\n".data ++ (d ++ t).data) := by
      rw [String.data_append]
      rfl
    rw [hdata, List.dropWhile_cons, if_neg (by decide), ← hdata]
    exact key

/-- C7 (counterexample): the writing stage can succeed with an empty markdown
draft; then no heading is prepended (the `if display_report` guard is false)
and the single final-artifact chunk does not begin with `# Report`. -/
theorem run_artifact_heading_cex :
    envC7cex.writeRes = .ok { short_summary := "empty", markdown_report := "", follow_up_questions := [] } ∧
    (runModel envC7cex).countP (isKind .artifact) = 1 ∧
    ((runModel envC7cex).filter (isKind .artifact)).all
      (fun e => !(pyStartswith e.text "# Report")) = true :=
  ⟨rfl, by decide, by decide⟩

/-- C7 (amended): for every run whose writing stage succeeds with a NONEMPTY
draft, the final-artifact chunk begins with the canonical `# Report` heading
once leading whitespace is discarded; when the stripped draft does not
already start with the heading it is prepended, and then the chunk begins
with `# Report` outright (when it does already start with it, the draft is
left as-is, and the chunk can begin with the draft leading whitespace). -/
theorem run_artifact_heading (env : RunEnv)
    (plan : WebSearchPlan) (results : List String) (report : ReportData)
    (hplan : env.planRes = .ok plan)
    (hsearch : env.searchRes = .ok results)
    (hwrite : env.writeRes = .ok report)
    (hne : report.markdown_report ≠ "") :
    ∀ ev ∈ runModel env, ev.kind = .artifact →
      pyStartswith (pyLStrip ev.text) "# Report" = true ∧
      (pyStartswith (pyStrip report.markdown_report) "# Report" = false →
        pyStartswith ev.text "# Report" = true) := by
  intro ev hev hkind
  have hmem : ev ∈ (runModel env).filter (isKind .artifact) :=
    List.mem_filter.mpr ⟨hev, by simp [isKind, hkind]⟩
  rw [runModel_artifact_texts env plan results report hplan hsearch hwrite] at hmem
  have heq := List.mem_singleton.mp hmem
  subst heq
  exact displayReport_append_starts report.markdown_report (auditArtifactTail env) hne

/-- C7 (witness): the amended theorem applied to the artifact chunk of a run
whose nonempty draft lacks the heading. -/
theorem run_artifact_heading_witness :
    pyStartswith
      (pyLStrip (displayReportOf reportW.markdown_report ++ auditArtifactTail envC7wit))
      "# Report" = true ∧
    (pyStartswith (pyStrip reportW.markdown_report) "# Report" = false →
      pyStartswith (displayReportOf reportW.markdown_report ++ auditArtifactTail envC7wit)
        "# Report" = true) := by
  have hfil := runModel_artifact_texts envC7wit planW resultsW reportW rfl rfl rfl
  have hmem : (⟨.auditing, .artifact,
      displayReportOf reportW.markdown_report ++ auditArtifactTail envC7wit⟩ : Event)
      ∈ runModel envC7wit := by
    have hx : (⟨.auditing, .artifact,
        displayReportOf reportW.markdown_report ++ auditArtifactTail envC7wit⟩ : Event)
        ∈ (runModel envC7wit).filter (isKind .artifact) := by
      rw [hfil]
      exact List.mem_singleton.mpr rfl
    exact (List.mem_filter.mp hx).1
  exact run_artifact_heading envC7wit planW resultsW reportW rfl rfl rfl (by decide) _ hmem rfl
